import Mathlib

/-!
Verification of the mcpify serialization core: a shallow embedding of
`mcp_types.py`, `value_serializer.py`, `pointer_registry.py` and
`callable_inspector.py` (the `TypeConverter` part), with theorems checking
the natural-language specification against the code.

Modelling conventions:
* Python runtime values are the inductive `PyVal`.  Python `float` is
  modelled as an exact rational (`ℚ`); NaN/infinity and binary rounding are
  outside the model.  Python `dict`s are insertion-ordered association
  lists; keys are arbitrary values, as in Python.
* JSON text produced by `json.dumps` is modelled as `PyVal.str (encodeJson j)`
  where `j : Json` is the structural JSON value; `encodeJson` follows
  `json.dumps` default formatting (separators ", " and ": ").
* Fallible Python operations return `Except PyErr _`; a raised exception is
  `.error`.
-/

set_option maxHeartbeats 1000000

namespace Mcpify

/-- Model of a Python runtime value. -/
inductive PyVal : Type where
  | none
  | bool (b : Bool)
  | int (n : Int)
  | float (q : ℚ)
  | str (s : String)
  | list (xs : List PyVal)
  | tuple (xs : List PyVal)
  | dict (entries : List (PyVal × PyVal))
  | obj (cls : String) (attrs : List (String × PyVal))

/-- Structural JSON value (the parse of a JSON text). -/
inductive Json : Type where
  | null
  | bool (b : Bool)
  | int (n : Int)
  | float (q : ℚ)
  | str (s : String)
  | arr (xs : List Json)
  | obj (fields : List (String × Json))

/-- Model of a raised Python exception. -/
inductive PyErr : Type where
  | typeError (msg : String)
  | valueError (msg : String)
  deriving DecidableEq

/-- Python truthiness (`bool(v)` / `if v:`). -/
def pyTruthy : PyVal → Bool
  | .none => false
  | .bool b => b
  | .int n => n != 0
  | .float q => q != 0
  | .str s => s != ""
  | .list xs => !xs.isEmpty
  | .tuple xs => !xs.isEmpty
  | .dict es => !es.isEmpty
  | .obj _ _ => true

/-- Single-quote character (written via its code point to keep source plain). -/
def sq : String := String.singleton (Char.ofNat 39)

/-- Double-quote character. -/
def dq : String := String.singleton (Char.ofNat 34)

/-- Backslash character. -/
def bsl : String := String.singleton (Char.ofNat 92)

/-- Rendering of a Python float.  Python prints the shortest decimal that
round-trips the IEEE double; the model keeps floats exact, so an integral
float prints as "n.0" and any other rational as numerator/denominator.
No claim inspects a rendered float. -/
def floatRepr (q : ℚ) : String :=
  if q.den = 1 then toString q.num ++ ".0"
  else toString q.num ++ "/" ++ toString q.den

mutual

/-- Model of Python repr().  String escaping inside repr is elided and the
memory address in an object repr is abstracted; claims never render either. -/
def pyRepr : PyVal → String
  | .none => "None"
  | .bool b => if b then "True" else "False"
  | .int n => toString n
  | .float q => floatRepr q
  | .str s => sq ++ s ++ sq
  | .list xs => "[" ++ pyReprSeq xs ++ "]"
  | .tuple xs =>
    "(" ++ pyReprSeq xs ++ (if xs.length = 1 then ",)" else ")")
  | .dict es => "\x7b" ++ pyReprDict es ++ "\x7d"
  | .obj cls _ => "<" ++ cls ++ " object>"

def pyReprSeq : List PyVal → String
  | [] => ""
  | [v] => pyRepr v
  | v :: rest => pyRepr v ++ ", " ++ pyReprSeq rest

def pyReprDict : List (PyVal × PyVal) → String
  | [] => ""
  | [(k, v)] => pyRepr k ++ ": " ++ pyRepr v
  | (k, v) :: rest => pyRepr k ++ ": " ++ pyRepr v ++ ", " ++ pyReprDict rest

end

/-- Model of the Python builtin str(): identity on strings, repr-style
rendering for everything else (containers show element reprs). -/
def pyStr : PyVal → String
  | .str s => s
  | v => pyRepr v

/-- Parse used by int(s) on a string: optional surrounding whitespace,
optional sign, decimal digits (underscores and base prefixes are outside the
model; no claim parses an int from a string). -/
def parseIntStr (s : String) : Option Int :=
  let digitsVal := fun (u : String) =>
    u.toList.foldl (fun a c => a * 10 + ((c.toNat : Int) - 48)) (0 : Int)
  let isDigits := fun (u : String) => u.length > 0 && u.toList.all Char.isDigit
  let t := s.trim
  if t.startsWith "-" then
    if isDigits (t.drop 1) then some (-(digitsVal (t.drop 1))) else Option.none
  else if t.startsWith "+" then
    if isDigits (t.drop 1) then some (digitsVal (t.drop 1)) else Option.none
  else if isDigits t then some (digitsVal t) else Option.none

/-- Parse used by float(s): optional sign, digits with optional fractional
part (exponent forms outside the model; no claim parses a float string). -/
def parseFloatStr (s : String) : Option ℚ :=
  let digitsVal := fun (u : String) =>
    u.toList.foldl (fun a c => a * 10 + (c.toNat - 48)) (0 : Nat)
  let isDigits := fun (u : String) => u.length > 0 && u.toList.all Char.isDigit
  let unsigned := fun (u : String) =>
    match u.split (· == Char.ofNat 46) with
    | [a] => if isDigits a then some ((digitsVal a : ℚ)) else Option.none
    | [a, b] =>
      if isDigits a && isDigits b then
        some ((digitsVal a : ℚ) + (digitsVal b : ℚ) / ((10 : ℚ) ^ b.length))
      else Option.none
    | _ => Option.none
  let t := s.trim
  if t.startsWith "-" then (unsigned (t.drop 1)).map (fun q => -q)
  else if t.startsWith "+" then unsigned (t.drop 1)
  else unsigned t

/-- Model of the Python builtin int(v): identity on ints, 0/1 on bools,
truncation toward zero on floats, decimal parse on strings, TypeError
otherwise. -/
def pyIntFn : PyVal → Except PyErr PyVal
  | .bool b => .ok (.int (if b then 1 else 0))
  | .int n => .ok (.int n)
  | .float q => .ok (.int (q.num.tdiv (q.den : Int)))
  | .str s =>
    match parseIntStr s with
    | some n => .ok (.int n)
    | Option.none => .error (.valueError ("invalid literal for int(): " ++ s))
  | _ => .error (.typeError "int() argument must be a string or a number")

/-- Model of the Python builtin float(v). -/
def pyFloatFn : PyVal → Except PyErr PyVal
  | .bool b => .ok (.float (if b then 1 else 0))
  | .int n => .ok (.float (n : ℚ))
  | .float q => .ok (.float q)
  | .str s =>
    match parseFloatStr s with
    | some q => .ok (.float q)
    | Option.none => .error (.valueError ("could not convert string to float: " ++ s))
  | _ => .error (.typeError "float() argument must be a string or a number")

/-- json.dumps key coercion: str, int, float, bool and None keys are allowed
(non-string keys rendered JSON-style); any other key raises TypeError, even
when a default function is given. -/
def keyStr : PyVal → Except PyErr String
  | .str s => .ok s
  | .bool b => .ok (if b then "true" else "false")
  | .int n => .ok (toString n)
  | .float q => .ok (floatRepr q)
  | .none => .ok "null"
  | _ => .error (.typeError "keys must be str, int, float, bool or None")

/-- Minimal JSON string escaping: quote and backslash (control characters are
outside the claims' inputs). -/
def escapeJsonStr (s : String) : String :=
  s.toList.foldl (fun acc c =>
    if c = Char.ofNat 34 then acc ++ bsl ++ dq
    else if c = Char.ofNat 92 then acc ++ bsl ++ bsl
    else acc ++ String.singleton c) ""

mutual

/-- JSON text of a structural JSON value, following json.dumps default
formatting (item separator ", ", key separator ": "). -/
def encodeJson : Json → String
  | .null => "null"
  | .bool b => if b then "true" else "false"
  | .int n => toString n
  | .float q => floatRepr q
  | .str s => dq ++ escapeJsonStr s ++ dq
  | .arr xs => "[" ++ encodeJsonSeq xs ++ "]"
  | .obj fs => "\x7b" ++ encodeJsonObj fs ++ "\x7d"

def encodeJsonSeq : List Json → String
  | [] => ""
  | [x] => encodeJson x
  | x :: rest => encodeJson x ++ ", " ++ encodeJsonSeq rest

def encodeJsonObj : List (String × Json) → String
  | [] => ""
  | [(k, v)] => dq ++ escapeJsonStr k ++ dq ++ ": " ++ encodeJson v
  | (k, v) :: rest =>
    dq ++ escapeJsonStr k ++ dq ++ ": " ++ encodeJson v ++ ", " ++ encodeJsonObj rest

end

mutual

/-- Structural part of json.dumps(value) (useDefaultStr = false) and
json.dumps(value, default=str) (useDefaultStr = true): converts a Python
value to the JSON value whose text json.dumps would emit.  With default=str a
non-JSON-serializable value (an object with attributes) is rendered through
str(); without a default it raises TypeError.  Dict keys go through keyStr
and raise TypeError on non-primitive keys in both modes. -/
def dumpsVal (useDefaultStr : Bool) : PyVal → Except PyErr Json
  | .none => .ok .null
  | .bool b => .ok (.bool b)
  | .int n => .ok (.int n)
  | .float q => .ok (.float q)
  | .str s => .ok (.str s)
  | .list xs => (dumpsSeq useDefaultStr xs).map .arr
  | .tuple xs => (dumpsSeq useDefaultStr xs).map .arr
  | .dict es => (dumpsDict useDefaultStr es).map .obj
  | .obj cls attrs =>
    if useDefaultStr then .ok (.str (pyStr (.obj cls attrs)))
    else .error (.typeError ("Object of type " ++ cls ++ " is not JSON serializable"))

def dumpsSeq (useDefaultStr : Bool) : List PyVal → Except PyErr (List Json)
  | [] => .ok []
  | v :: rest => do
    let j ← dumpsVal useDefaultStr v
    let js ← dumpsSeq useDefaultStr rest
    .ok (j :: js)

def dumpsDict (useDefaultStr : Bool) :
    List (PyVal × PyVal) → Except PyErr (List (String × Json))
  | [] => .ok []
  | (k, v) :: rest => do
    let ks ← keyStr k
    let j ← dumpsVal useDefaultStr v
    let js ← dumpsDict useDefaultStr rest
    .ok ((ks, j) :: js)

end

/-- json.dumps(value, default=str): the JSON text as a Python string. -/
def jsonDumpsDS (v : PyVal) : Except PyErr PyVal :=
  (dumpsVal true v).map (fun j => .str (encodeJson j))

/-- json.dumps(value) with no default function. -/
def jsonDumps (v : PyVal) : Except PyErr PyVal :=
  (dumpsVal false v).map (fun j => .str (encodeJson j))

mutual

/-- Python value resulting from json.loads of a JSON text (JSON objects have
string keys). -/
def jsonToPy : Json → PyVal
  | .null => .none
  | .bool b => .bool b
  | .int n => .int n
  | .float q => .float q
  | .str s => .str s
  | .arr xs => .list (jsonToPySeq xs)
  | .obj fs => .dict (jsonToPyObj fs)

def jsonToPySeq : List Json → List PyVal
  | [] => []
  | x :: rest => jsonToPy x :: jsonToPySeq rest

def jsonToPyObj : List (String × Json) → List (PyVal × PyVal)
  | [] => []
  | (k, v) :: rest => (.str k, jsonToPy v) :: jsonToPyObj rest

end

/-- First-match lookup of a string key in a Python dict modelled as an
association list (Python dicts have unique keys, so first match is the
match); entries with non-string keys never equal a string key. -/
def dictGetStr (es : List (PyVal × PyVal)) (k : String) : Option PyVal :=
  match es with
  | [] => Option.none
  | (key, v) :: rest =>
    match key with
    | .str s => if s = k then some v else dictGetStr rest k
    | _ => dictGetStr rest k

/-- Python `k in d` for a string k. -/
def dictHasStr (es : List (PyVal × PyVal)) (k : String) : Bool :=
  (dictGetStr es k).isSome

/-- Python `d[k] = v` for a string key on a PyVal-keyed dict: replaces the
value under an existing equal key in place, otherwise appends. -/
def pyDictSetStr (es : List (PyVal × PyVal)) (k : String) (v : PyVal) :
    List (PyVal × PyVal) :=
  if dictHasStr es k then
    es.map (fun e =>
      match e.1 with
      | .str s => if s = k then (e.1, v) else e
      | _ => e)
  else es ++ [(.str k, v)]

/-- Python `d[k] = v` on a string-keyed table. -/
def alistSet {α : Type} (es : List (String × α)) (k : String) (v : α) :
    List (String × α) :=
  if es.any (fun e => e.1 == k) then
    es.map (fun e => if e.1 == k then (k, v) else e)
  else es ++ [(k, v)]

/-- Python `d.get(k)` on a string-keyed table: first match (Python dicts
have unique keys). -/
def alistGet {α : Type} (es : List (String × α)) (k : String) : Option α :=
  match es with
  | [] => Option.none
  | (a, b) :: rest => if a = k then some b else alistGet rest k

/-- A string-keyed mapping seen as a Python dict value (JSON-parsed dicts
and attribute bags have string keys). -/
def strKeyed (es : List (String × PyVal)) : List (PyVal × PyVal) :=
  es.map (fun e => (PyVal.str e.1, e.2))

/-- The closed descriptor algebra of mcp_types.py: MCPAny, MCPInt, MCPFloat,
MCPString, MCPBool, MCPArray, MCPObject, MCPUnion, MCPOptional.  Object
properties are keyed by Python values because TypeConverter builds them from
arbitrary dict keys; required likewise mirrors list(value.keys()). -/
inductive MCPTypeD : Type where
  | any
  | int
  | float
  | str
  | bool
  | array (items : MCPTypeD)
  | object (properties : List (PyVal × MCPTypeD)) (required : List PyVal)
      (type_name : Option String) (description : Option String)
  | union (variants : List MCPTypeD)
  | optional (inner : MCPTypeD)

/-- TypeRegistry (mcp_types.py lines 8-25): process-wide name-to-type map.
A registered Python class is modelled by its __name__, which is all the
reconstruction code observes in the model. -/
abbrev TypeRegistryState := List (String × String)

/-- TypeRegistry.get : dict get, None when absent. -/
def TypeRegistry.get (tr : TypeRegistryState) (name : String) : Option String :=
  tr.lookup name

/-- PointerRegistry (pointer_registry.py lines 7-63): the handle table
self._objects and the ids of installed finalizers self._finalizers.  The
table stores the object itself: self._objects[obj_id] = obj is a strong
reference. -/
structure PointerRegistry (α : Type) : Type where
  objects : List (String × α)
  finalizers : List String

/-- Whether CPython allows a weak reference to the value: instances of
user-defined classes support them; None, bools, ints, floats, strs, lists,
tuples and dicts do not, and weakref.finalize raises TypeError on them. -/
def weakRefable : PyVal → Bool
  | .obj _ _ => true
  | _ => false

/-- PointerRegistry.register (pointer_registry.py lines 15-29): stores the
object under the fresh uuid4 handle (passed here as freshId) at line 20,
then installs the cleanup finalizer at line 27.  weakref.finalize(obj,
cleanup) raises TypeError when obj does not support weak references, in
which case the error propagates with the table entry already in place (no
rollback) and no finalizer recorded; otherwise the handle is returned.
Because the table is generic, weak-referenceability of the stored value is
passed explicitly; PyVal call sites pass weakRefable (the real TypeError
message also names the object's type). -/
def PointerRegistry.register {α : Type} (s : PointerRegistry α) (o : α)
    (refable : Bool) (freshId : String) :
    Except PyErr String × PointerRegistry α :=
  let objects1 := alistSet s.objects freshId o
  if refable then
    (.ok freshId,
      { objects := objects1,
        finalizers :=
          if s.finalizers.contains freshId then s.finalizers
          else s.finalizers ++ [freshId] })
  else
    (.error (.typeError "cannot create weak reference to object"),
      { objects := objects1, finalizers := s.finalizers })

/-- PointerRegistry.get (lines 31-34): dict get, None when absent; total,
never raises. -/
def PointerRegistry.get {α : Type} (s : PointerRegistry α) (objId : String) :
    Option α :=
  alistGet s.objects objId

/-- PointerRegistry.unregister (lines 36-45): removes the entry and detaches
the finalizer when present, reporting whether anything was removed. -/
def PointerRegistry.unregister {α : Type} (s : PointerRegistry α)
    (objId : String) : Bool × PointerRegistry α :=
  if (alistGet s.objects objId).isSome then
    ⟨true,
      { objects := s.objects.filter (fun e => e.1 != objId),
        finalizers := s.finalizers.filter (fun i => i != objId) }⟩
  else ⟨false, s⟩

/-- PointerRegistry.size (lines 52-55). -/
def PointerRegistry.size {α : Type} (s : PointerRegistry α) : Nat :=
  s.objects.length

mutual

/-- TypeConverter.convert_from_value (callable_inspector.py lines 41-64).
isinstance(value, int) is true for Python bools (bool subclasses int), so
the int branch captures booleans and the bool branch is unreachable for
them.  An empty sequence infers string items; a non-empty one infers from
its first element; a mapping infers per-key properties with every key
required; an attribute bag infers a tagged object
(_convert_object_from_value, lines 66-80); anything else degrades to Any. -/
def TypeConverter.convert_from_value : PyVal → MCPTypeD
  | .bool _ => .int
  | .int _ => .int
  | .float _ => .float
  | .str _ => .str
  | .list xs => .array (convertFirst xs)
  | .tuple xs => .array (convertFirst xs)
  | .dict es => .object (convertProps es) (es.map Prod.fst) Option.none Option.none
  | .obj cls attrs =>
    .object (convertAttrs attrs) (attrs.map (fun a => PyVal.str a.1))
      (some cls) Option.none
  | .none => .any

def convertFirst : List PyVal → MCPTypeD
  | [] => .str
  | v :: _ => TypeConverter.convert_from_value v

def convertProps : List (PyVal × PyVal) → List (PyVal × MCPTypeD)
  | [] => []
  | (k, v) :: rest => (k, TypeConverter.convert_from_value v) :: convertProps rest

def convertAttrs : List (String × PyVal) → List (PyVal × MCPTypeD)
  | [] => []
  | (k, v) :: rest => (.str k, TypeConverter.convert_from_value v) :: convertAttrs rest

end

/-- MCPInt.serialize_value (mcp_types.py line 88-89): int(value). -/
def MCPInt.serialize_value (value : PyVal) : Except PyErr PyVal := pyIntFn value

/-- MCPInt.deserialize_value (lines 91-92): int(data). -/
def MCPInt.deserialize_value (data : PyVal) : Except PyErr PyVal := pyIntFn data

/-- MCPFloat.serialize_value (lines 97-98): float(value). -/
def MCPFloat.serialize_value (value : PyVal) : Except PyErr PyVal := pyFloatFn value

/-- MCPFloat.deserialize_value (lines 100-101): float(data). -/
def MCPFloat.deserialize_value (data : PyVal) : Except PyErr PyVal := pyFloatFn data

/-- MCPString.serialize_value (lines 106-107): str(value), total. -/
def MCPString.serialize_value (value : PyVal) : Except PyErr PyVal :=
  .ok (.str (pyStr value))

/-- MCPString.deserialize_value (lines 109-110): str(data). -/
def MCPString.deserialize_value (data : PyVal) : Except PyErr PyVal :=
  .ok (.str (pyStr data))

/-- MCPBool.serialize_value (lines 115-116): bool(value), truthiness. -/
def MCPBool.serialize_value (value : PyVal) : Except PyErr PyVal :=
  .ok (.bool (pyTruthy value))

/-- MCPBool.deserialize_value (lines 118-119): bool(data). -/
def MCPBool.deserialize_value (data : PyVal) : Except PyErr PyVal :=
  .ok (.bool (pyTruthy data))

/-- MCPArray.serialize_value (lines 126-129): a non-sequence value is lifted
into a one-element list, then json.dumps(value, default=str). -/
def MCPArray.serialize_value (items : MCPTypeD) (value : PyVal) :
    Except PyErr PyVal :=
  match value with
  | .list xs => jsonDumpsDS (.list xs)
  | .tuple xs => jsonDumpsDS (.tuple xs)
  | v => jsonDumpsDS (.list [v])

/-- MCPObject.serialize_value (mcp_types.py lines 148-160): copies the whole
attribute bag or mapping, embeds type_name under "__mcp_type__" when
declared, and JSON-encodes with default=str.  The `if self.type_name:`
guard (lines 151, 156) is a truthiness test, so an empty-string tag is not
embedded, exactly like a missing one.  The declared properties and required
lists are not consulted.  A value that is neither an attribute bag nor a
mapping is wrapped as a one-field object whose tag defaults to "object"
when type_name is missing or empty (self.type_name or "object"). -/
def MCPObject.serialize_value (properties : List (PyVal × MCPTypeD))
    (required : List PyVal) (type_name : Option String)
    (description : Option String) (value : PyVal) : Except PyErr PyVal :=
  match value with
  | .obj _ attrs =>
    let base : List (PyVal × PyVal) := attrs.map (fun a => (.str a.1, a.2))
    let withTag :=
      match type_name with
      | some t =>
        if t = "" then base else pyDictSetStr base "__mcp_type__" (.str t)
      | Option.none => base
    jsonDumpsDS (.dict withTag)
  | .dict es =>
    let withTag :=
      match type_name with
      | some t =>
        if t = "" then es else pyDictSetStr es "__mcp_type__" (.str t)
      | Option.none => es
    jsonDumpsDS (.dict withTag)
  | v =>
    let tag :=
      match type_name with
      | some t => if t = "" then "object" else t
      | Option.none => "object"
    jsonDumpsDS (.dict [(.str "value", v), (.str "__mcp_type__", .str tag)])

/-- MCPUnion.serialize_value (mcp_types.py lines 207-208):
json.dumps(value, default=str).  The declared variants are not consulted. -/
def MCPUnion.serialize_value (variants : List MCPTypeD) (value : PyVal) :
    Except PyErr PyVal :=
  jsonDumpsDS value

/-- MCPAny.serialize_value (lines 46-50): plain json.dumps for primitives
and None, json.dumps with default=str otherwise. -/
def MCPAny.serialize_value (value : PyVal) : Except PyErr PyVal :=
  match value with
  | .str s => jsonDumps (.str s)
  | .int n => jsonDumps (.int n)
  | .float q => jsonDumps (.float q)
  | .bool b => jsonDumps (.bool b)
  | .none => jsonDumps .none
  | v => jsonDumpsDS v

/-- Dispatch of serialize_value over the descriptor algebra, as Python
method dispatch does over the MCPType subclasses.  MCPOptional
(lines 221-226) passes None through and otherwise delegates to inner (both
isinstance arms of the source delegate identically). -/
def MCPTypeD.serialize_value : MCPTypeD → PyVal → Except PyErr PyVal
  | .any, v => MCPAny.serialize_value v
  | .int, v => MCPInt.serialize_value v
  | .float, v => MCPFloat.serialize_value v
  | .str, v => MCPString.serialize_value v
  | .bool, v => MCPBool.serialize_value v
  | .array items, v => MCPArray.serialize_value items v
  | .object p r t d, v => MCPObject.serialize_value p r t d v
  | .union vs, v => MCPUnion.serialize_value vs v
  | .optional inner, v =>
    match v with
    | .none => .ok .none
    | w => MCPTypeD.serialize_value inner w

/-- Classification of the data argument of deserialize_value by how the
source's parse step treats it: a Python mapping is used as-is
(isinstance(data, dict)); a string holding valid JSON text parses to its
JSON value; anything else makes json.loads raise, which the source catches
(json.JSONDecodeError or TypeError). -/
inductive WireData : Type where
  | pyDict (entries : List (PyVal × PyVal))
  | jsonText (j : Json)
  | raw (v : PyVal)

/-- The reconstruction loop of deserialize_value (mcp_types.py lines
186-189): setattr(obj, key, value) for every parsed item whose key is not
"__mcp_type__"; setattr raises TypeError on a non-string attribute name. -/
def setattrLoop : List (PyVal × PyVal) → Except PyErr (List (String × PyVal))
  | [] => .ok []
  | (k, v) :: rest =>
    match k with
    | .str s =>
      if s = "__mcp_type__" then setattrLoop rest
      else (setattrLoop rest).map (fun tl => (s, v) :: tl)
    | _ => .error (.typeError "attribute name must be string")

/-- The branch chain of MCPObject.deserialize_value after parsing
(mcp_types.py lines 171-196): a mapping carrying "__mcp_ptr__" resolves its
id through the pointer registry (ValueError when the id is falsy or
unknown); a mapping carrying "__mcp_type__" reconstructs a bare instance of
the TypeRegistry entry when one exists and otherwise returns the mapping
unchanged; any other mapping is returned unchanged; a non-mapping parse is
wrapped as a one-key "value" mapping. -/
def MCPObject.deserializeParsed (tr : TypeRegistryState)
    (pr : PointerRegistry PyVal) (parsed : PyVal) : Except PyErr PyVal :=
  match parsed with
  | .dict es =>
    if dictHasStr es "__mcp_ptr__" then
      match dictGetStr es "id" with
      | some idv =>
        if pyTruthy idv then
          match (match idv with | .str s => pr.get s | _ => Option.none) with
          | some o => .ok o
          | Option.none =>
            .error (.valueError ("unknown object pointer: " ++ pyStr idv))
        else .error (.valueError "pointer envelope missing id")
      | Option.none => .error (.valueError "pointer envelope missing id")
    else if dictHasStr es "__mcp_type__" then
      let tagv := (dictGetStr es "__mcp_type__").getD .none
      match (match tagv with | .str s => TypeRegistry.get tr s | _ => Option.none) with
      | some cls => (setattrLoop es).map (fun attrs => .obj cls attrs)
      | Option.none => .ok (.dict es)
    else .ok (.dict es)
  | v => .ok (.dict [(.str "value", v)])

/-- MCPObject.deserialize_value (mcp_types.py lines 162-196).  The declared
properties, required, type_name and description are never consulted. -/
def MCPObject.deserialize_value (tr : TypeRegistryState)
    (pr : PointerRegistry PyVal) (properties : List (PyVal × MCPTypeD))
    (required : List PyVal) (type_name : Option String)
    (description : Option String) (data : WireData) : Except PyErr PyVal :=
  match data with
  | .pyDict es => MCPObject.deserializeParsed tr pr (.dict es)
  | .jsonText j => MCPObject.deserializeParsed tr pr (jsonToPy j)
  | .raw v => .ok (.dict [(.str "value", v)])

/-- ValueSerializer.serialize (value_serializer.py lines 14-42), with the
pointer registry passed explicitly and freshId standing for the uuid4
handle register would draw.  The line 25 guard
isinstance(value, (list, dict)) and not hasattr(value, chr(95)...) or
value.__class__ in (list, dict) parses as (A and B) or C with B always
false (every value has __class__), so it reduces to: the value's class is
exactly list or dict.  Branches in source order: a mapping already carrying
"__mcp_ptr__" is re-encoded with plain json.dumps; primitives and None go
through inference plus the inferred serializer; plain lists and dicts
likewise; an attribute-bearing object is registered and emitted as a
pointer envelope; anything else falls back to str(). -/
def ValueSerializer.serialize (use_pointers : Bool)
    (pr : PointerRegistry PyVal) (freshId : String) (value : PyVal) :
    Except PyErr PyVal × PointerRegistry PyVal :=
  match value with
  | .dict es =>
    if dictHasStr es "__mcp_ptr__" then (jsonDumps (.dict es), pr)
    else ((TypeConverter.convert_from_value (.dict es)).serialize_value (.dict es), pr)
  | .int n => ((TypeConverter.convert_from_value (.int n)).serialize_value (.int n), pr)
  | .float q => ((TypeConverter.convert_from_value (.float q)).serialize_value (.float q), pr)
  | .str s => ((TypeConverter.convert_from_value (.str s)).serialize_value (.str s), pr)
  | .bool b => ((TypeConverter.convert_from_value (.bool b)).serialize_value (.bool b), pr)
  | .none => ((TypeConverter.convert_from_value .none).serialize_value .none, pr)
  | .list xs => ((TypeConverter.convert_from_value (.list xs)).serialize_value (.list xs), pr)
  | .obj cls attrs =>
    if use_pointers then
      match PointerRegistry.register pr (.obj cls attrs)
          (weakRefable (.obj cls attrs)) freshId with
      | (.ok objId, pr1) =>
        let envelope : PyVal := .dict
          [ (.str "__mcp_ptr__", .bool true),
            (.str "type", .str cls),
            (.str "id", .str objId),
            (.str "attrs", .list (attrs.map (fun a => PyVal.str a.1))) ]
        (jsonDumps envelope, pr1)
      | (.error e, pr1) => (.error e, pr1)
    else (MCPString.serialize_value (.obj cls attrs), pr)
  | .tuple xs => (MCPString.serialize_value (.tuple xs), pr)

/-- Reachability model for the registry lifetime claim: objects are
identified by tokens; externalRefs are the strong references held by owners
other than the registry; the registry table itself stores the object, a
strong reference (pointer_registry.py line 20).  CPython collects an object
(and only then runs its weakref.finalize callbacks) once no strong
reference to it remains. -/
structure RefWorld : Type where
  externalRefs : List Nat
  reg : PointerRegistry Nat

/-- An object is strongly referenced while any owner, the registry table
included, still holds it. -/
def RefWorld.stronglyReferenced (w : RefWorld) (o : Nat) : Bool :=
  w.externalRefs.contains o || (w.reg.objects.map Prod.snd).contains o

/-- Precondition for the automatic cleanup hook installed by register to
fire: the object must have been collected, which requires that no strong
reference to it remains. -/
def RefWorld.cleanupCanFire (w : RefWorld) (o : Nat) : Bool :=
  !(w.stronglyReferenced o)

/-- register(obj) seen at the world level.  Tokens denote instances of
user-defined classes - the only values the serializer hands to register -
which support weak references, so the finalize step succeeds (refable is
true); the strong table entry is what the lifetime claim is about. -/
def RefWorld.registerObj (w : RefWorld) (o : Nat) (freshId : String) : RefWorld :=
  { w with reg := (PointerRegistry.register w.reg o true freshId).2 }

/-- The owner outside the registry drops its (last) reference to o. -/
def RefWorld.dropExternal (w : RefWorld) (o : Nat) : RefWorld :=
  { w with externalRefs := w.externalRefs.filter (fun x => x != o) }

mutual

/-- Success condition of dumpsVal u: every mapping reachable without
passing through an attribute object must carry only primitive keys, and
with u = false (plain json.dumps, no default) attribute objects themselves
are not serializable. -/
def dumpsOkP (u : Bool) : PyVal → Bool
  | .list xs => dumpsOkPSeq u xs
  | .tuple xs => dumpsOkPSeq u xs
  | .dict es => dumpsOkPDict u es
  | .obj _ _ => u
  | _ => true

def dumpsOkPSeq (u : Bool) : List PyVal → Bool
  | [] => true
  | v :: rest => dumpsOkP u v && dumpsOkPSeq u rest

def dumpsOkPDict (u : Bool) : List (PyVal × PyVal) → Bool
  | [] => true
  | (k, v) :: rest => (keyStr k).isOk && dumpsOkP u v && dumpsOkPDict u rest

end

/-- The inputs on which ValueSerializer.serialize succeeds: everything
except a mapping whose JSON encoding raises - a non-primitive dict key
outside attribute objects, or, for a mapping already carrying the
"__mcp_ptr__" marker (re-encoded with plain json.dumps), any embedded
attribute object. -/
def ValueSerializer.serializeSafe : PyVal → Bool
  | .dict es =>
    if dictHasStr es "__mcp_ptr__" then dumpsOkPDict false es
    else dumpsOkPDict true es
  | .list xs => dumpsOkPSeq true xs
  | _ => true

/-! ### Supporting lemmas -/

theorem alistGet_append_of_none {α : Type} (es : List (String × α)) (k : String)
    (v : α) (h : alistGet es k = Option.none) :
    alistGet (es ++ [(k, v)]) k = some v := by
  induction es with
  | nil => simp [alistGet]
  | cons e rest ih =>
    simp only [alistGet] at h ⊢
    by_cases hk : e.1 = k
    · simp [hk] at h
    · simpa [hk] using ih (by simpa [hk] using h)

theorem any_eq_false_of_alistGet_none {α : Type} (es : List (String × α))
    (k : String) (h : alistGet es k = Option.none) :
    es.any (fun e => e.1 == k) = false := by
  induction es with
  | nil => simp
  | cons e rest ih =>
    simp only [alistGet] at h
    by_cases hk : e.1 = k
    · simp [hk] at h
    · simpa [hk] using ih (by simpa [hk] using h)

theorem alistGet_map_replace {α : Type} (k : String) (v : α) :
    ∀ es : List (String × α), es.any (fun e => e.1 == k) = true →
      alistGet (es.map (fun e => if e.1 == k then (k, v) else e)) k = some v := by
  intro es
  induction es with
  | nil => simp
  | cons e rest ih =>
    obtain ⟨a, b⟩ := e
    intro h
    by_cases hk : a = k
    · simp only [List.map_cons]
      rw [if_pos (show ((a, b).1 == k) = true by simpa using hk)]
      simp [alistGet]
    · have h2 : rest.any (fun e => e.1 == k) = true := by simpa [hk] using h
      simp only [List.map_cons]
      rw [if_neg (by simpa using hk)]
      simp only [alistGet]
      rw [if_neg hk]
      exact ih h2

theorem alistGet_append_self {α : Type} (k : String) (v : α) :
    ∀ es : List (String × α), es.any (fun e => e.1 == k) = false →
      alistGet (es ++ [(k, v)]) k = some v := by
  intro es
  induction es with
  | nil => simp [alistGet]
  | cons e rest ih =>
    obtain ⟨a, b⟩ := e
    intro h
    have hk : ¬a = k := by
      intro hak; simp [hak] at h
    have h2 : rest.any (fun e => e.1 == k) = false := by simpa [hk] using h
    simp only [List.cons_append, alistGet]
    rw [if_neg hk]
    exact ih h2

theorem alistGet_alistSet {α : Type} (es : List (String × α)) (k : String)
    (v : α) : alistGet (alistSet es k v) k = some v := by
  unfold alistSet
  cases h : es.any (fun e => e.1 == k) with
  | true => simpa [h] using alistGet_map_replace k v es h
  | false => simpa [h] using alistGet_append_self k v es h

theorem filter_ne_of_alistGet_none {α : Type} (es : List (String × α))
    (k : String) (h : alistGet es k = Option.none) :
    es.filter (fun e => e.1 != k) = es := by
  induction es with
  | nil => rfl
  | cons e rest ih =>
    simp only [alistGet] at h
    by_cases hk : e.1 = k
    · simp [hk] at h
    · simp only [List.filter_cons]
      rw [if_pos (by simpa using hk)]
      rw [ih (by simpa [hk] using h)]

theorem dictGetStr_strKeyed (es : List (String × PyVal)) (k : String) :
    dictGetStr (strKeyed es) k = alistGet es k := by
  induction es with
  | nil => rfl
  | cons e rest ih =>
    by_cases hk : e.1 = k
    · simp [strKeyed, dictGetStr, alistGet, hk]
    · simpa [strKeyed, dictGetStr, alistGet, hk] using ih

theorem setattrLoop_strKeyed (es : List (String × PyVal)) :
    setattrLoop (strKeyed es)
      = .ok (es.filter (fun e => e.1 != "__mcp_type__")) := by
  induction es with
  | nil => rfl
  | cons e rest ih =>
    obtain ⟨a, b⟩ := e
    by_cases hk : a = "__mcp_type__"
    · simp only [strKeyed, List.map_cons, setattrLoop, List.filter_cons] at ih ⊢
      rw [if_pos hk, if_neg (by simpa using hk)]
      exact ih
    · simp only [strKeyed, List.map_cons, setattrLoop, List.filter_cons] at ih ⊢
      rw [if_neg hk, if_pos (by simpa using hk)]
      rw [ih]
      rfl

theorem dumpsSeq_map_str (u : Bool) (names : List String) :
    dumpsSeq u (names.map PyVal.str) = .ok (names.map Json.str) := by
  induction names with
  | nil => rfl
  | cons a rest ih =>
    simp only [List.map_cons, dumpsSeq, dumpsVal]
    rw [ih]
    rfl

theorem dumpsDict_strKeyed_keys (u : Bool) (es : List (String × PyVal)) :
    ∀ js, dumpsDict u (strKeyed es) = .ok js →
      js.map Prod.fst = es.map Prod.fst := by
  induction es with
  | nil =>
    intro js h
    simp only [strKeyed, List.map_nil, dumpsDict] at h
    cases h
    rfl
  | cons e rest ih =>
    obtain ⟨a, b⟩ := e
    intro js h
    simp only [strKeyed, List.map_cons, dumpsDict, keyStr] at h
    cases hv : dumpsVal u b with
    | error err =>
      rw [hv] at h
      cases h
    | ok j =>
      rw [hv] at h
      cases hrest : dumpsDict u (strKeyed rest) with
      | error err =>
        rw [show dumpsDict u (List.map (fun e => (PyVal.str e.1, e.2)) rest)
              = .error err from hrest] at h
        cases h
      | ok js2 =>
        rw [show dumpsDict u (List.map (fun e => (PyVal.str e.1, e.2)) rest)
              = .ok js2 from hrest] at h
        cases h
        simp [ih js2 hrest]

theorem alistSet_append_of_fresh {α : Type} (es : List (String × α))
    (k : String) (v : α) (h : alistGet es k = Option.none) :
    alistSet es k v = es ++ [(k, v)] := by
  unfold alistSet
  rw [if_neg]
  simp [any_eq_false_of_alistGet_none es k h]

theorem dumpsSeq_attr_names (u : Bool) (attrs : List (String × PyVal)) :
    dumpsSeq u (attrs.map (fun a => PyVal.str a.1))
      = .ok (attrs.map (fun a => Json.str a.1)) := by
  induction attrs with
  | nil => rfl
  | cons a rest ih =>
    simp only [List.map_cons, dumpsSeq, dumpsVal]
    rw [ih]
    rfl

theorem pyDictSetStr_append_of_absent (es : List (PyVal × PyVal))
    (k : String) (v : PyVal) (h : dictHasStr es k = false) :
    pyDictSetStr es k v = es ++ [(.str k, v)] := by
  unfold pyDictSetStr
  rw [if_neg (by simp [h])]

theorem isOk_map {α β : Type} (f : α → β) (e : Except PyErr α) :
    (e.map f).isOk = e.isOk := by
  cases e <;> rfl

theorem dumps_isOk_aux :
    ∀ n : Nat,
      (∀ (u : Bool) (v : PyVal), sizeOf v ≤ n → dumpsOkP u v = true →
        (dumpsVal u v).isOk = true) ∧
      (∀ (u : Bool) (xs : List PyVal), sizeOf xs ≤ n →
        dumpsOkPSeq u xs = true → (dumpsSeq u xs).isOk = true) ∧
      (∀ (u : Bool) (es : List (PyVal × PyVal)), sizeOf es ≤ n →
        dumpsOkPDict u es = true → (dumpsDict u es).isOk = true) := by
  intro n
  induction n with
  | zero =>
    refine ⟨?_, ?_, ?_⟩
    · intro u v hv _; exact absurd hv (by cases v <;> simp)
    · intro u xs hxs _; exact absurd hxs (by cases xs <;> simp)
    · intro u es hes _; exact absurd hes (by cases es <;> simp)
  | succ n ih =>
    obtain ⟨ihv, ihs, ihd⟩ := ih
    refine ⟨?_, ?_, ?_⟩
    · intro u v hv hok
      cases v with
      | none => rfl
      | bool b => rfl
      | int m => rfl
      | float q => rfl
      | str s => rfl
      | list xs =>
        have hsz : sizeOf xs ≤ n := by simp at hv; omega
        simp only [dumpsVal, isOk_map]
        exact ihs u xs hsz (by simpa [dumpsOkP] using hok)
      | tuple xs =>
        have hsz : sizeOf xs ≤ n := by simp at hv; omega
        simp only [dumpsVal, isOk_map]
        exact ihs u xs hsz (by simpa [dumpsOkP] using hok)
      | dict es =>
        have hsz : sizeOf es ≤ n := by simp at hv; omega
        simp only [dumpsVal, isOk_map]
        exact ihd u es hsz (by simpa [dumpsOkP] using hok)
      | obj cls attrs =>
        have hu : u = true := by simpa [dumpsOkP] using hok
        simp [dumpsVal, hu, Except.isOk, Except.toBool]
    · intro u xs hxs hok
      cases xs with
      | nil => rfl
      | cons v rest =>
        have hv : sizeOf v ≤ n := by simp at hxs; omega
        have hr : sizeOf rest ≤ n := by simp at hxs; omega
        simp only [dumpsOkPSeq, Bool.and_eq_true] at hok
        have e1 := ihv u v hv hok.1
        have e2 := ihs u rest hr hok.2
        cases h1 : dumpsVal u v with
        | error err => rw [h1] at e1; simp [Except.isOk, Except.toBool] at e1
        | ok j =>
          cases h2 : dumpsSeq u rest with
          | error err => rw [h2] at e2; simp [Except.isOk, Except.toBool] at e2
          | ok js =>
            simp only [dumpsSeq, h1, h2]
            rfl
    · intro u es hes hok
      cases es with
      | nil => rfl
      | cons e rest =>
        obtain ⟨k, v⟩ := e
        have hv : sizeOf v ≤ n := by simp at hes; omega
        have hr : sizeOf rest ≤ n := by simp at hes; omega
        simp only [dumpsOkPDict, Bool.and_eq_true] at hok
        have e1 := ihv u v hv hok.1.2
        have e2 := ihd u rest hr hok.2
        cases hk : keyStr k with
        | error err =>
          rw [hk] at hok; simp [Except.isOk, Except.toBool] at hok
        | ok ks =>
          cases h1 : dumpsVal u v with
          | error err => rw [h1] at e1; simp [Except.isOk, Except.toBool] at e1
          | ok j =>
            cases h2 : dumpsDict u rest with
            | error err => rw [h2] at e2; simp [Except.isOk, Except.toBool] at e2
            | ok js =>
              simp only [dumpsDict, hk, h1, h2]
              rfl

/-! ### Claims -/

/-- Claim C7: for every Primitive descriptor kind (Int, Float, String,
Bool) and native value of that kind, deserialize(serialize(v)) == v.  The
coercions int/float/str/bool are identities on values already of their
kind; floats are exact rationals in the model (NaN, which Python compares
unequal to itself, is outside it). -/
theorem primitive_roundtrip :
    ∀ (n : Int) (q : ℚ) (s : String) (b : Bool),
      (MCPInt.serialize_value (.int n)).bind MCPInt.deserialize_value
          = .ok (.int n) ∧
      (MCPFloat.serialize_value (.float q)).bind MCPFloat.deserialize_value
          = .ok (.float q) ∧
      (MCPString.serialize_value (.str s)).bind MCPString.deserialize_value
          = .ok (.str s) ∧
      (MCPBool.serialize_value (.bool b)).bind MCPBool.deserialize_value
          = .ok (.bool b) :=
  fun _ _ _ _ => ⟨rfl, rfl, rfl, rfl⟩

/-- Claim C10: descriptor inference from a boolean value returns the Int
descriptor, not the Bool descriptor (the isinstance int test precedes the
bool test and Python bools satisfy it), so booleans fall under the Int
contract: int(True) = 1, int(False) = 0. -/
theorem bool_infers_int_descriptor :
    ∀ b : Bool,
      TypeConverter.convert_from_value (.bool b) = MCPTypeD.int ∧
      MCPTypeD.int ≠ MCPTypeD.bool ∧
      MCPTypeD.int.serialize_value (.bool b)
          = .ok (.int (if b then 1 else 0)) :=
  fun _ => ⟨rfl, by simp, rfl⟩

/-- Claim C3 counterexample: Union([Int, String]) serializing 5 does not
produce the Int variant's encoding.  The union JSON-encodes the value,
yielding the Python string "5"; the Int variant's encoding is the raw
integer 5, a different value. -/
theorem union_first_variant_cex :
    MCPUnion.serialize_value [MCPTypeD.int, MCPTypeD.str] (.int 5)
        = .ok (.str "5") ∧
    MCPInt.serialize_value (.int 5) = .ok (.int 5) ∧
    PyVal.str "5" ≠ PyVal.int 5 :=
  ⟨rfl, rfl, by simp⟩

/-- Claim C3 amended: Union serialization never consults its declared
variants: for every variant list, serializing the integer n yields the JSON
text of n (a Python string, json.dumps(value, default=str)), never the Int
variant's raw integer. -/
theorem union_serialize_ignores_variants :
    ∀ (variants : List MCPTypeD) (n : Int),
      MCPUnion.serialize_value variants (.int n)
          = .ok (.str (encodeJson (.int n))) ∧
      MCPUnion.serialize_value variants (.int n) ≠ .ok (.int n) :=
  fun variants n =>
    ⟨rfl, by simp [MCPUnion.serialize_value, jsonDumpsDS, dumpsVal, Except.map]⟩

/-- Claim C4 (registry lifetime): the handle table stores the object itself
(pointer_registry.py line 20), a strong reference.  After the only other
owner drops the object, it is still strongly referenced through the
registry, so its lifetime is extended and the weakref.finalize cleanup that
would remove the entry can never fire: get still returns the object and the
entry survives, contradicting the weak, non-owning association the claim
(and the finalizer machinery itself) describes. -/
theorem registry_strong_reference :
    ((RefWorld.registerObj ⟨[7], ⟨[], []⟩⟩ 7 "h1").dropExternal
        7).stronglyReferenced 7 = true ∧
    ((RefWorld.registerObj ⟨[7], ⟨[], []⟩⟩ 7 "h1").dropExternal
        7).cleanupCanFire 7 = false ∧
    ((RefWorld.registerObj ⟨[7], ⟨[], []⟩⟩ 7 "h1").dropExternal
        7).reg.get "h1" = some 7 ∧
    ((RefWorld.registerObj ⟨[7], ⟨[], []⟩⟩ 7 "h1").dropExternal
        7).reg.size = 1 :=
  ⟨rfl, rfl, rfl, rfl⟩

/-- Claim C8 counterexample: serialize is not total.  A plain mapping with
a tuple key reaches json.dumps, whose key handling raises TypeError even
with default=str, and serialize propagates the exception. -/
theorem serialize_total_cex :
    (ValueSerializer.serialize true ⟨[], []⟩ "h"
        (.dict [(.tuple [], .int 3)])).1
      = .error (.typeError "keys must be str, int, float, bool or None") :=
  rfl

/-- Claim C9 counterexample: register(7) does not return a handle under
which get yields the object: weakref.finalize raises TypeError on an int,
so register raises - and, the entry having been stored before the finalize
call, it is left behind in the table. -/
theorem register_nonweakref_cex :
    ((⟨[], []⟩ : PointerRegistry PyVal).register (.int 7)
        (weakRefable (.int 7)) "h1").1
      = .error (.typeError "cannot create weak reference to object") ∧
    ((⟨[], []⟩ : PointerRegistry PyVal).register (.int 7)
        (weakRefable (.int 7)) "h1").2.get "h1" = some (.int 7) :=
  ⟨rfl, rfl⟩

/-- Claim C9 amended: for every weak-referenceable object (an instance of
a user-defined class - the only kind of value the serializer hands to
register), the lifecycle contract holds: register returns a fresh handle
under which get returns the object itself; after unregister, get returns
not_found and a repeated unregister returns false leaving the state
unchanged; get with a handle absent from the table returns not_found (get
is total by construction and never raises).  For non-weak-referenceable
values (ints, strings, lists, dicts, tuples) register instead raises
TypeError from weakref.finalize. -/
theorem registry_lifecycle :
    ∀ (s : PointerRegistry PyVal) (obj : PyVal) (h : String),
      weakRefable obj = true →
      alistGet s.objects h = Option.none →
      ((s.register obj (weakRefable obj) h).1 = .ok h ∧
       (s.register obj (weakRefable obj) h).2.get h = some obj ∧
       ((s.register obj (weakRefable obj) h).2.unregister h).1 = true ∧
       ((s.register obj (weakRefable obj) h).2.unregister h).2.get h
          = Option.none ∧
       (((s.register obj (weakRefable obj) h).2.unregister h).2.unregister
          h).1 = false ∧
       (((s.register obj (weakRefable obj) h).2.unregister h).2.unregister
          h).2 = ((s.register obj (weakRefable obj) h).2.unregister h).2 ∧
       s.get h = Option.none) := by
  intro s obj h hw hfresh
  have hget : alistGet (alistSet s.objects h obj) h = some obj :=
    alistGet_alistSet s.objects h obj
  have hfilter :
      (alistSet s.objects h obj).filter (fun e => e.1 != h) = s.objects := by
    rw [alistSet_append_of_fresh s.objects h obj hfresh, List.filter_append,
      filter_ne_of_alistGet_none s.objects h hfresh]
    simp
  refine ⟨?_, ?_, ?_, ?_, ?_, ?_, ?_⟩
  · simp [PointerRegistry.register, hw]
  · simp [PointerRegistry.get, PointerRegistry.register, hw, hget]
  · simp [PointerRegistry.unregister, PointerRegistry.register, hw, hget]
  · simp [PointerRegistry.unregister, PointerRegistry.register,
      PointerRegistry.get, hw, hget, hfilter, hfresh]
  · simp [PointerRegistry.unregister, PointerRegistry.register, hw, hget,
      hfilter, hfresh]
  · simp [PointerRegistry.unregister, PointerRegistry.register, hw, hget,
      hfilter, hfresh]
  · simp [PointerRegistry.get, hfresh]

/-- Claim C9 witness: the lifecycle contract evaluated on the empty
registry, a bare instance of class T, and the handle h1. -/
theorem registry_lifecycle_witness :
    weakRefable (.obj "T" []) = true ∧
    alistGet ([] : List (String × PyVal)) "h1" = Option.none ∧
    (let s0 : PointerRegistry PyVal := ⟨[], []⟩
     let obj : PyVal := .obj "T" []
     let s1 := (s0.register obj (weakRefable obj) "h1").2
     (s0.register obj (weakRefable obj) "h1").1 = .ok "h1" ∧
     s1.get "h1" = some obj ∧
     (s1.unregister "h1").1 = true ∧
     (s1.unregister "h1").2.get "h1" = Option.none ∧
     ((s1.unregister "h1").2.unregister "h1").1 = false ∧
     ((s1.unregister "h1").2.unregister "h1").2 = (s1.unregister "h1").2 ∧
     s0.get "h1" = Option.none) :=
  ⟨rfl, rfl, registry_lifecycle ⟨[], []⟩ (.obj "T" []) "h1" rfl rfl⟩

/-- Claim C6: serializing an attribute-bearing value with no declared
Object descriptor produces a pointer envelope: the JSON text of an object
with exactly the four fields __mcp_ptr__: true, type: the class name,
id: the fresh handle, attrs: the attribute names; and looking the id up in
the updated registry returns the original object. -/
theorem serialize_object_pointer_envelope :
    ∀ (cls : String) (attrs : List (String × PyVal))
      (pr : PointerRegistry PyVal) (freshId : String),
      (ValueSerializer.serialize true pr freshId (.obj cls attrs)).1
        = .ok (.str (encodeJson (Json.obj
            [("__mcp_ptr__", Json.bool true), ("type", Json.str cls),
             ("id", Json.str freshId),
             ("attrs", Json.arr (attrs.map (fun a => Json.str a.1)))]))) ∧
      (ValueSerializer.serialize true pr freshId (.obj cls attrs)).2.get
          freshId = some (.obj cls attrs) := by
  intro cls attrs pr freshId
  constructor
  · simp only [ValueSerializer.serialize, if_pos, jsonDumps, dumpsVal,
      dumpsDict, keyStr, PointerRegistry.register]
    rw [dumpsSeq_attr_names]
    rfl
  · simp only [ValueSerializer.serialize, PointerRegistry.register,
      PointerRegistry.get]
    exact alistGet_alistSet pr.objects freshId (.obj cls attrs)

/-- Claim C1 counterexample: Object(type_tag="Foo") deserializing a mapping
tagged "Bar" does not raise: with "Bar" unregistered it returns the parsed
mapping unchanged, and with "Bar" registered it silently returns a
reconstructed instance of the registered class; the declared tag is never
compared. -/
theorem object_tag_mismatch_cex :
    MCPObject.deserialize_value [] ⟨[], []⟩ [(.str "x", MCPTypeD.int)]
        [.str "x"] (some "Foo") Option.none
        (.pyDict [(.str "__mcp_type__", .str "Bar"), (.str "x", .int 1)])
      = .ok (.dict [(.str "__mcp_type__", .str "Bar"), (.str "x", .int 1)]) ∧
    MCPObject.deserialize_value [("Bar", "BarCls")] ⟨[], []⟩
        [(.str "x", MCPTypeD.int)] [.str "x"] (some "Foo") Option.none
        (.pyDict [(.str "__mcp_type__", .str "Bar"), (.str "x", .int 1)])
      = .ok (.obj "BarCls" [("x", .int 1)]) :=
  ⟨rfl, rfl⟩

/-- Claim C1 amended: deserializing a mapping whose embedded tag differs
from the declared type_tag never raises a mismatch error: the declared tag
is ignored; when the embedded tag names a TypeRegistry entry the data is
reconstructed as a bare instance of that class (tag key dropped), otherwise
the parsed mapping is returned unchanged, tag included. -/
theorem object_deserialize_ignores_declared_tag :
    ∀ (tr : TypeRegistryState) (pr : PointerRegistry PyVal)
      (props : List (PyVal × MCPTypeD)) (req : List PyVal)
      (T : String) (desc : Option String)
      (es : List (String × PyVal)) (tag : String),
      alistGet es "__mcp_ptr__" = Option.none →
      alistGet es "__mcp_type__" = some (.str tag) →
      tag ≠ T →
      MCPObject.deserialize_value tr pr props req (some T) desc
          (.pyDict (strKeyed es))
        = .ok (match TypeRegistry.get tr tag with
               | some cls =>
                 .obj cls (es.filter (fun e => e.1 != "__mcp_type__"))
               | Option.none => .dict (strKeyed es)) := by
  intro tr pr props req T desc es tag hptr htag _
  cases hreg : TypeRegistry.get tr tag with
  | some cls =>
    simp [MCPObject.deserialize_value, MCPObject.deserializeParsed, dictHasStr,
      dictGetStr_strKeyed, hptr, htag, hreg, setattrLoop_strKeyed, Except.map]
  | none =>
    simp [MCPObject.deserialize_value, MCPObject.deserializeParsed, dictHasStr,
      dictGetStr_strKeyed, hptr, htag, hreg]

/-- Claim C1 witness: the amended behavior evaluated with declared tag Foo,
embedded tag Bar, and Bar registered as class BarCls. -/
theorem object_deserialize_ignores_declared_tag_witness :
    alistGet [("__mcp_type__", PyVal.str "Bar"), ("x", PyVal.int 1)]
        "__mcp_ptr__" = Option.none ∧
    alistGet [("__mcp_type__", PyVal.str "Bar"), ("x", PyVal.int 1)]
        "__mcp_type__" = some (.str "Bar") ∧
    "Bar" ≠ "Foo" ∧
    MCPObject.deserialize_value [("Bar", "BarCls")] ⟨[], []⟩ [] [] (some "Foo")
        Option.none
        (.pyDict (strKeyed [("__mcp_type__", PyVal.str "Bar"),
          ("x", PyVal.int 1)]))
      = .ok (match TypeRegistry.get [("Bar", "BarCls")] "Bar" with
             | some cls =>
               .obj cls ([("__mcp_type__", PyVal.str "Bar"),
                 ("x", PyVal.int 1)].filter (fun e => e.1 != "__mcp_type__"))
             | Option.none =>
               .dict (strKeyed [("__mcp_type__", PyVal.str "Bar"),
                 ("x", PyVal.int 1)])) :=
  ⟨rfl, rfl, by decide,
    object_deserialize_ignores_declared_tag [("Bar", "BarCls")] ⟨[], []⟩ [] []
      "Foo" Option.none [("__mcp_type__", PyVal.str "Bar"), ("x", PyVal.int 1)]
      "Bar" rfl rfl (by decide)⟩

/-- Claim C2 counterexample: the descriptor Object(properties={x:Int,y:Int},
required=[x,y], type_tag="Point") deserializing the wire mapping
x:"3", y:4 returns the mapping unchanged: "3" is not coerced to 3, so the
claimed output x:3, y:4 is not produced. -/
theorem object_point_example_cex :
    MCPObject.deserialize_value [] ⟨[], []⟩
        [(.str "x", MCPTypeD.int), (.str "y", MCPTypeD.int)]
        [.str "x", .str "y"] (some "Point") Option.none
        (.pyDict [(.str "x", .str "3"), (.str "y", .int 4)])
      = .ok (.dict [(.str "x", .str "3"), (.str "y", .int 4)]) ∧
    Except.ok (α := PyVal) (ε := PyErr)
        (.dict [(.str "x", .str "3"), (.str "y", .int 4)])
      ≠ .ok (.dict [(.str "x", .int 3), (.str "y", .int 4)]) :=
  ⟨rfl, by simp⟩

/-- Claim C2 amended: for every Object descriptor, an untagged wire mapping
(no __mcp_ptr__ and no __mcp_type__ key) deserializes to the parsed mapping
unchanged: no declared property is consulted and no nested coercion is
applied. -/
theorem object_deserialize_untagged_passthrough :
    ∀ (tr : TypeRegistryState) (pr : PointerRegistry PyVal)
      (props : List (PyVal × MCPTypeD)) (req : List PyVal)
      (tn : Option String) (desc : Option String)
      (es : List (String × PyVal)),
      alistGet es "__mcp_ptr__" = Option.none →
      alistGet es "__mcp_type__" = Option.none →
      MCPObject.deserialize_value tr pr props req tn desc
          (.pyDict (strKeyed es))
        = .ok (.dict (strKeyed es)) := by
  intro tr pr props req tn desc es hptr htag
  simp [MCPObject.deserialize_value, MCPObject.deserializeParsed, dictHasStr,
    dictGetStr_strKeyed, hptr, htag]

/-- Claim C2 witness: the pass-through evaluated on the Point descriptor
and the wire mapping x:"3", y:4. -/
theorem object_deserialize_untagged_passthrough_witness :
    alistGet [("x", PyVal.str "3"), ("y", PyVal.int 4)] "__mcp_ptr__"
        = Option.none ∧
    alistGet [("x", PyVal.str "3"), ("y", PyVal.int 4)] "__mcp_type__"
        = Option.none ∧
    MCPObject.deserialize_value [] ⟨[], []⟩
        [(.str "x", MCPTypeD.int), (.str "y", MCPTypeD.int)]
        [.str "x", .str "y"] (some "Point") Option.none
        (.pyDict (strKeyed [("x", PyVal.str "3"), ("y", PyVal.int 4)]))
      = .ok (.dict (strKeyed [("x", PyVal.str "3"), ("y", PyVal.int 4)])) :=
  ⟨rfl, rfl,
    object_deserialize_untagged_passthrough [] ⟨[], []⟩
      [(.str "x", MCPTypeD.int), (.str "y", MCPTypeD.int)]
      [.str "x", .str "y"] (some "Point") Option.none
      [("x", PyVal.str "3"), ("y", PyVal.int 4)] rfl rfl⟩

/-- Claim C5 counterexample: an Object descriptor declaring only property x
serializes the mapping x:1, z:2 to a wire object that still contains the
undeclared key z (plus the embedded tag): undeclared keys are not
filtered out. -/
theorem object_serialize_undeclared_key_cex :
    MCPObject.serialize_value [(.str "x", MCPTypeD.int)] [.str "x"]
        (some "P") Option.none (.dict [(.str "x", .int 1), (.str "z", .int 2)])
      = .ok (.str (encodeJson (.obj [("x", .int 1), ("z", .int 2),
          ("__mcp_type__", .str "P")]))) ∧
    "z" ∈ ([("x", Json.int 1), ("z", Json.int 2),
        ("__mcp_type__", Json.str "P")].map Prod.fst) ∧
    PyVal.str "z" ∉ ([(PyVal.str "x", MCPTypeD.int)].map Prod.fst) :=
  ⟨rfl, by decide, by simp⟩

/-- Claim C5 amended: for every Object descriptor and every attribute-bag
or mapping value, serialization emits every key of the value, declared or
not - the declared properties are never consulted - plus the embedded
__mcp_type__ tag exactly when the descriptor declares a non-empty type_tag
(the source's `if self.type_name:` truthiness test skips a missing or
empty tag).  Stated for values whose JSON encoding succeeds. -/
theorem object_serialize_emits_all_keys :
    ∀ (props : List (PyVal × MCPTypeD)) (req : List PyVal) (t : String)
      (desc : Option String) (cls : String) (es : List (String × PyVal))
      (jes jes0 : List (String × Json)),
      t ≠ "" →
      alistGet es "__mcp_type__" = Option.none →
      dumpsDict true (strKeyed (es ++ [("__mcp_type__", .str t)])) = .ok jes →
      dumpsDict true (strKeyed es) = .ok jes0 →
      (MCPObject.serialize_value props req (some t) desc (.dict (strKeyed es))
          = .ok (.str (encodeJson (.obj jes))) ∧
       MCPObject.serialize_value props req (some t) desc (.obj cls es)
          = .ok (.str (encodeJson (.obj jes))) ∧
       jes.map Prod.fst = es.map Prod.fst ++ ["__mcp_type__"] ∧
       MCPObject.serialize_value props req Option.none desc
          (.dict (strKeyed es)) = .ok (.str (encodeJson (.obj jes0))) ∧
       MCPObject.serialize_value props req (some "") desc
          (.dict (strKeyed es)) = .ok (.str (encodeJson (.obj jes0))) ∧
       MCPObject.serialize_value props req Option.none desc (.obj cls es)
          = .ok (.str (encodeJson (.obj jes0))) ∧
       MCPObject.serialize_value props req (some "") desc (.obj cls es)
          = .ok (.str (encodeJson (.obj jes0))) ∧
       jes0.map Prod.fst = es.map Prod.fst) := by
  intro props req t desc cls es jes jes0 ht htag hdump hdump0
  have habsent : dictHasStr (strKeyed es) "__mcp_type__" = false := by
    simp [dictHasStr, dictGetStr_strKeyed, htag]
  have hset : pyDictSetStr (strKeyed es) "__mcp_type__" (.str t)
      = strKeyed (es ++ [("__mcp_type__", .str t)]) := by
    rw [pyDictSetStr_append_of_absent _ _ _ habsent]
    simp [strKeyed]
  have hkeys := dumpsDict_strKeyed_keys true (es ++ [("__mcp_type__", .str t)])
    jes hdump
  have hkeys0 := dumpsDict_strKeyed_keys true es jes0 hdump0
  have hbase : (es.map (fun a => (PyVal.str a.1, a.2))) = strKeyed es := rfl
  refine ⟨?_, ?_, ?_, ?_, ?_, ?_, ?_, ?_⟩
  · simp only [MCPObject.serialize_value]
    rw [if_neg ht, hset]
    simp only [jsonDumpsDS, dumpsVal, hdump]
    rfl
  · simp only [MCPObject.serialize_value]
    rw [hbase, if_neg ht, hset]
    simp only [jsonDumpsDS, dumpsVal, hdump]
    rfl
  · simpa using hkeys
  · simp only [MCPObject.serialize_value, jsonDumpsDS, dumpsVal, hdump0]
    rfl
  · simp only [MCPObject.serialize_value, if_true]
    simp only [jsonDumpsDS, dumpsVal, hdump0]
    rfl
  · simp only [MCPObject.serialize_value, hbase, jsonDumpsDS, dumpsVal,
      hdump0]
    rfl
  · simp only [MCPObject.serialize_value, hbase, if_true]
    simp only [jsonDumpsDS, dumpsVal, hdump0]
    rfl
  · exact hkeys0

/-- Claim C5 witness: the amended behavior evaluated on a descriptor
declaring only x and the value x:1, z:2: with declared tag P the wire keys
are x, z, __mcp_type__; with no tag (or the falsy empty tag) they are
exactly x, z. -/
theorem object_serialize_emits_all_keys_witness :
    "P" ≠ "" ∧
    alistGet [("x", PyVal.int 1), ("z", PyVal.int 2)] "__mcp_type__"
        = Option.none ∧
    dumpsDict true (strKeyed ([("x", PyVal.int 1), ("z", PyVal.int 2)]
        ++ [("__mcp_type__", .str "P")]))
      = .ok [("x", Json.int 1), ("z", Json.int 2),
          ("__mcp_type__", Json.str "P")] ∧
    dumpsDict true (strKeyed [("x", PyVal.int 1), ("z", PyVal.int 2)])
      = .ok [("x", Json.int 1), ("z", Json.int 2)] ∧
    (MCPObject.serialize_value [(.str "x", MCPTypeD.int)] [.str "x"]
        (some "P") Option.none
        (.dict (strKeyed [("x", PyVal.int 1), ("z", PyVal.int 2)]))
       = .ok (.str (encodeJson (.obj [("x", Json.int 1), ("z", Json.int 2),
           ("__mcp_type__", Json.str "P")]))) ∧
     MCPObject.serialize_value [(.str "x", MCPTypeD.int)] [.str "x"]
        (some "P") Option.none
        (.obj "C" [("x", PyVal.int 1), ("z", PyVal.int 2)])
       = .ok (.str (encodeJson (.obj [("x", Json.int 1), ("z", Json.int 2),
           ("__mcp_type__", Json.str "P")]))) ∧
     ([("x", Json.int 1), ("z", Json.int 2),
        ("__mcp_type__", Json.str "P")].map Prod.fst)
       = ([("x", PyVal.int 1), ("z", PyVal.int 2)].map Prod.fst)
           ++ ["__mcp_type__"] ∧
     MCPObject.serialize_value [(.str "x", MCPTypeD.int)] [.str "x"]
        Option.none Option.none
        (.dict (strKeyed [("x", PyVal.int 1), ("z", PyVal.int 2)]))
       = .ok (.str (encodeJson (.obj [("x", Json.int 1),
           ("z", Json.int 2)]))) ∧
     MCPObject.serialize_value [(.str "x", MCPTypeD.int)] [.str "x"]
        (some "") Option.none
        (.dict (strKeyed [("x", PyVal.int 1), ("z", PyVal.int 2)]))
       = .ok (.str (encodeJson (.obj [("x", Json.int 1),
           ("z", Json.int 2)]))) ∧
     MCPObject.serialize_value [(.str "x", MCPTypeD.int)] [.str "x"]
        Option.none Option.none
        (.obj "C" [("x", PyVal.int 1), ("z", PyVal.int 2)])
       = .ok (.str (encodeJson (.obj [("x", Json.int 1),
           ("z", Json.int 2)]))) ∧
     MCPObject.serialize_value [(.str "x", MCPTypeD.int)] [.str "x"]
        (some "") Option.none
        (.obj "C" [("x", PyVal.int 1), ("z", PyVal.int 2)])
       = .ok (.str (encodeJson (.obj [("x", Json.int 1),
           ("z", Json.int 2)]))) ∧
     ([("x", Json.int 1), ("z", Json.int 2)].map Prod.fst)
       = ([("x", PyVal.int 1), ("z", PyVal.int 2)].map Prod.fst)) :=
  ⟨by decide, rfl, rfl, rfl,
    object_serialize_emits_all_keys [(.str "x", MCPTypeD.int)] [.str "x"] "P"
      Option.none "C" [("x", PyVal.int 1), ("z", PyVal.int 2)]
      [("x", Json.int 1), ("z", Json.int 2), ("__mcp_type__", Json.str "P")]
      [("x", Json.int 1), ("z", Json.int 2)]
      (by decide) rfl rfl rfl⟩

/-- Claim C8 amended: serialize returns a wire value on every input except
those whose JSON encoding itself raises: a mapping carrying a non-primitive
key outside attribute objects (json.dumps TypeError even with default=str),
or a mapping already marked "__mcp_ptr__" that embeds a non-JSON-
serializable value (plain json.dumps).  On all other inputs - primitives,
None, plain lists and mappings, attribute-bearing objects, and the
stringify fallback - it never raises. -/
theorem serialize_never_raises :
    ∀ (up : Bool) (pr : PointerRegistry PyVal) (freshId : String)
      (v : PyVal),
      ValueSerializer.serializeSafe v = true →
      (ValueSerializer.serialize up pr freshId v).1.isOk = true := by
  intro up pr freshId v hsafe
  cases v with
  | none => rfl
  | bool b => rfl
  | int n => rfl
  | float q => rfl
  | str s => rfl
  | tuple xs => rfl
  | list xs =>
    have hseq : dumpsOkPSeq true xs = true := by
      simpa [ValueSerializer.serializeSafe] using hsafe
    have hs := (dumps_isOk_aux (sizeOf xs)).2.1 true xs le_rfl hseq
    simp only [ValueSerializer.serialize, TypeConverter.convert_from_value,
      MCPTypeD.serialize_value, MCPArray.serialize_value, jsonDumpsDS,
      dumpsVal, isOk_map]
    exact hs
  | dict es =>
    cases hm : dictHasStr es "__mcp_ptr__" with
    | true =>
      have hstrict : dumpsOkPDict false es = true := by
        simpa [ValueSerializer.serializeSafe, hm] using hsafe
      have hd := (dumps_isOk_aux (sizeOf es)).2.2 false es le_rfl hstrict
      simp only [ValueSerializer.serialize, hm, if_pos, jsonDumps, dumpsVal,
        isOk_map]
      exact hd
    | false =>
      have hds : dumpsOkPDict true es = true := by
        simpa [ValueSerializer.serializeSafe, hm] using hsafe
      have hd := (dumps_isOk_aux (sizeOf es)).2.2 true es le_rfl hds
      simp only [ValueSerializer.serialize, hm, Bool.false_eq_true,
        if_false, TypeConverter.convert_from_value, MCPTypeD.serialize_value,
        MCPObject.serialize_value, jsonDumpsDS, dumpsVal, isOk_map]
      exact hd
  | obj cls attrs =>
    cases up with
    | true =>
      simp only [ValueSerializer.serialize, if_pos, jsonDumps, dumpsVal,
        dumpsDict, keyStr, PointerRegistry.register]
      rw [dumpsSeq_attr_names]
      rfl
    | false => rfl

/-- Claim C8 witness: a plain JSON-shaped mapping is safe and serialize
succeeds on it. -/
theorem serialize_never_raises_witness :
    ValueSerializer.serializeSafe (.dict [(.str "a", .int 1)]) = true ∧
    (ValueSerializer.serialize true ⟨[], []⟩ "h"
        (.dict [(.str "a", .int 1)])).1.isOk = true :=
  ⟨rfl, serialize_never_raises true ⟨[], []⟩ "h"
    (.dict [(.str "a", .int 1)]) rfl⟩

end Mcpify
